import Mathlib

/-!
Verification of the Cooja log analyzer in `analyze_and_plot_real_logs.py`.

The analyzer scans a line-oriented log once, incrementing six integer
counters from per-line substring tests, and derives the packet delivery
ratio (pdr) and packet loss ratio (plr).  We embed the scan loop and the
metric computation shallowly: a log line is its character sequence,
Python's `in` is list-infix containment, `str.upper`/`str.lower` are the
ASCII per-character case maps, and the float division is modelled exactly
over ℚ.
-/

namespace LiMSD

/-- A log line, modelled as its character sequence. -/
abbrev Line := List Char

/-- Python's `needle in hay` substring membership test. -/
def pyIn (needle hay : Line) : Bool := decide (needle <:+: hay)

/-- Python's `str.upper()` as the per-character ASCII case map. -/
def pyUpper (s : Line) : Line := s.map Char.toUpper

/-- Python's `str.lower()` as the per-character ASCII case map. -/
def pyLower (s : Line) : Line := s.map Char.toLower

/-- Per-line test feeding `data_sent` (source line 37). -/
def sendPred (line : Line) : Bool :=
  pyIn "DATA_TX:".toList line || pyIn "Sending packet".toList line

/-- Per-line test feeding `data_received` (source line 41). -/
def recvPred (line : Line) : Bool :=
  pyIn "DATA: Received".toList line || pyIn "RX [".toList line

/-- Per-line test feeding `dao_sent` (source line 45): the send-phrase must be
present and the upper-cased line must contain `DAO`. -/
def daoSentPred (line : Line) : Bool :=
  pyIn "packet sent to".toList line && pyIn "DAO".toList (pyUpper line)

/-- Per-line test feeding `dao_blocked` (source line 49): exact-case
`Blocked DAO`, or `blocked` inside the lower-cased line. -/
def daoBlockedPred (line : Line) : Bool :=
  pyIn "Blocked DAO".toList line || pyIn "blocked".toList (pyLower line)

/-- Per-line test feeding `nodes_blacklisted` (source line 53). -/
def blacklistedPred (line : Line) : Bool :=
  pyIn "BLACKLISTED".toList line

/-- Per-line test feeding `attack_count` (source line 57). -/
def attackCountPred (line : Line) : Bool :=
  pyIn "Attack count".toList line

/-- The six counters of `CoojaLogAnalyzer` (source lines 21 to 28). -/
structure CoojaLogAnalyzer where
  data_sent : Nat
  data_received : Nat
  dao_sent : Nat
  dao_blocked : Nat
  nodes_blacklisted : Nat
  attack_count : Nat
deriving Repr, DecidableEq

/-- The zero-initialised analyzer built by `__init__`. -/
def initState : CoojaLogAnalyzer := ⟨0, 0, 0, 0, 0, 0⟩

/-- One iteration of the scan loop in `analyze` (source lines 35 to 58):
each of the six independent `if` statements in order. -/
def analyzeLine (a : CoojaLogAnalyzer) (line : Line) : CoojaLogAnalyzer :=
  let a := if sendPred line then { a with data_sent := a.data_sent + 1 } else a
  let a := if recvPred line then { a with data_received := a.data_received + 1 } else a
  let a := if daoSentPred line then { a with dao_sent := a.dao_sent + 1 } else a
  let a := if daoBlockedPred line then { a with dao_blocked := a.dao_blocked + 1 } else a
  let a := if blacklistedPred line then { a with nodes_blacklisted := a.nodes_blacklisted + 1 } else a
  let a := if attackCountPred line then { a with attack_count := a.attack_count + 1 } else a
  a

/-- The Metrics Snapshot dictionary returned by `get_metrics`
(source lines 67 to 76), field order as in the source. -/
structure Metrics where
  data_sent : Nat
  data_received : Nat
  pdr : ℚ
  plr : ℚ
  dao_sent : Nat
  dao_blocked : Nat
  nodes_blacklisted : Nat
  attack_count : Nat
deriving Repr, DecidableEq

/-- `get_metrics` (source lines 62 to 76): the guarded pdr division and
`plr = 100 - pdr`, with the float arithmetic modelled exactly over ℚ. -/
def get_metrics (a : CoojaLogAnalyzer) : Metrics :=
  let pdr : ℚ := if a.data_sent > 0 then (a.data_received : ℚ) / (a.data_sent : ℚ) * 100 else 0
  let plr : ℚ := 100 - pdr
  { data_sent := a.data_sent, data_received := a.data_received, pdr := pdr, plr := plr,
    dao_sent := a.dao_sent, dao_blocked := a.dao_blocked,
    nodes_blacklisted := a.nodes_blacklisted, attack_count := a.attack_count }

/-- `analyze` (source lines 30 to 60): fold the scan loop over the log's
lines from the zero state, then compute the metrics. -/
def analyze (lines : List Line) : Metrics :=
  get_metrics (lines.foldl analyzeLine initState)

example : sendPred "x DATA_TX: 7".toList = true := by decide
example : sendPred "x data_tx: 7".toList = false := by decide
example : daoSentPred "dao packet sent to 5".toList = true := by decide
example : daoBlockedPred "node BLOCKED now".toList = true := by decide

/-- One loop iteration, written as a simultaneous update: each counter grows
by one exactly when its predicate holds on the line. -/
theorem analyzeLine_eq (a : CoojaLogAnalyzer) (line : Line) :
    analyzeLine a line =
      ⟨a.data_sent + (if sendPred line then 1 else 0),
       a.data_received + (if recvPred line then 1 else 0),
       a.dao_sent + (if daoSentPred line then 1 else 0),
       a.dao_blocked + (if daoBlockedPred line then 1 else 0),
       a.nodes_blacklisted + (if blacklistedPred line then 1 else 0),
       a.attack_count + (if attackCountPred line then 1 else 0)⟩ := by
  unfold analyzeLine
  cases h1 : sendPred line <;> cases h2 : recvPred line <;>
    cases h3 : daoSentPred line <;> cases h4 : daoBlockedPred line <;>
    cases h5 : blacklistedPred line <;> cases h6 : attackCountPred line <;>
    simp [h1, h2, h3, h4, h5, h6]

/-- Scanning a whole log adds, to each starting counter, the number of lines
satisfying that counter's predicate. -/
theorem foldl_analyzeLine (lines : List Line) :
    ∀ a : CoojaLogAnalyzer, lines.foldl analyzeLine a =
      ⟨a.data_sent + lines.countP sendPred,
       a.data_received + lines.countP recvPred,
       a.dao_sent + lines.countP daoSentPred,
       a.dao_blocked + lines.countP daoBlockedPred,
       a.nodes_blacklisted + lines.countP blacklistedPred,
       a.attack_count + lines.countP attackCountPred⟩ := by
  induction lines with
  | nil => intro a; simp
  | cons x xs ih =>
      intro a
      rw [List.foldl_cons, ih, analyzeLine_eq]
      simp only [List.countP_cons, CoojaLogAnalyzer.mk.injEq]
      omega

/-- The whole analysis, expressed through per-predicate line counts. -/
theorem analyze_eq (lines : List Line) :
    analyze lines =
      get_metrics ⟨lines.countP sendPred, lines.countP recvPred,
        lines.countP daoSentPred, lines.countP daoBlockedPred,
        lines.countP blacklistedPred, lines.countP attackCountPred⟩ := by
  unfold analyze
  rw [foldl_analyzeLine]
  simp [initState]

/-- Unfolding of `get_metrics` into an explicit record. -/
theorem get_metrics_def (a : CoojaLogAnalyzer) :
    get_metrics a =
      { data_sent := a.data_sent, data_received := a.data_received,
        pdr := if a.data_sent > 0 then (a.data_received : ℚ) / (a.data_sent : ℚ) * 100 else 0,
        plr := 100 - (if a.data_sent > 0 then (a.data_received : ℚ) / (a.data_sent : ℚ) * 100 else 0),
        dao_sent := a.dao_sent, dao_blocked := a.dao_blocked,
        nodes_blacklisted := a.nodes_blacklisted, attack_count := a.attack_count } := rfl

/-- Membership as a Boolean test agrees with the infix relation. -/
theorem pyIn_eq_true_iff {needle hay : Line} : pyIn needle hay = true ↔ needle <:+: hay := by
  simp [pyIn]

/-- Mapping a character function over both lists preserves the infix relation. -/
theorem infix_map (f : Char → Char) {l₁ l₂ : Line} (h : l₁ <:+: l₂) :
    l₁.map f <:+: l₂.map f := by
  obtain ⟨s, t, rfl⟩ := h
  exact ⟨s.map f, t.map f, by simp⟩

/-- The `data_sent` field of the result counts the send-marker lines. -/
theorem analyze_data_sent (lines : List Line) :
    (analyze lines).data_sent = lines.countP sendPred := by
  rw [analyze_eq, get_metrics_def]

/-- The `data_received` field of the result counts the receive-marker lines. -/
theorem analyze_data_received (lines : List Line) :
    (analyze lines).data_received = lines.countP recvPred := by
  rw [analyze_eq, get_metrics_def]

/-- The `pdr` field of the result, in terms of the two line counts. -/
theorem analyze_pdr (lines : List Line) :
    (analyze lines).pdr =
      if lines.countP sendPred > 0 then
        (lines.countP recvPred : ℚ) / (lines.countP sendPred : ℚ) * 100
      else 0 := by
  rw [analyze_eq, get_metrics_def]

/-- The `plr` field of the result is always the complement of `pdr`. -/
theorem analyze_plr (lines : List Line) :
    (analyze lines).plr = 100 - (analyze lines).pdr := by
  rw [analyze_eq, get_metrics_def]

/-- A 22-line log: 12 send-marker lines then 10 receive-marker lines, with
no line matching any other predicate. -/
def log12_10 : List Line :=
  List.replicate 12 "DATA_TX: p".toList ++ List.replicate 10 "RX [ q".toList

/-- A three-line log whose receive-marker lines outnumber its send-marker
lines. -/
def logRecvHeavy : List Line :=
  ["DATA_TX: a".toList, "RX [1".toList, "RX [2".toList]

/-- A three-line log with two send-marker lines and one receive-marker line. -/
def demoLog : List Line :=
  ["DATA_TX: a".toList, "DATA_TX: b".toList, "RX [1".toList]

/-- C1, counterexample: the line `dao packet sent to 5` contains the
send-phrase and lowercase `dao` but no uppercase `DAO`, yet analyzing the
one-line log yields `dao_sent = 1`: the scan DOES increment `dao_sent`. -/
theorem c1_lowercase_dao_counterexample :
    pyIn "packet sent to".toList "dao packet sent to 5".toList = true ∧
    pyIn "dao".toList "dao packet sent to 5".toList = true ∧
    pyIn "DAO".toList "dao packet sent to 5".toList = false ∧
    (analyze ["dao packet sent to 5".toList]).dao_sent = 1 := by
  refine ⟨by decide, by decide, by decide, ?_⟩
  rw [analyze_eq, get_metrics_def]
  decide

/-- C1, amended: a line containing the send-phrase and the lowercase
substring `dao` DOES increment `dao_sent`, because the `dao_sent` check
upper-cases the whole line before looking for `DAO`. -/
theorem c1_lowercase_dao_increments (a : CoojaLogAnalyzer) (line : Line)
    (hsend : pyIn "packet sent to".toList line = true)
    (hdao : pyIn "dao".toList line = true) :
    (analyzeLine a line).dao_sent = a.dao_sent + 1 := by
  have hDAO : pyIn "DAO".toList (pyUpper line) = true := by
    rw [pyIn_eq_true_iff] at hdao ⊢
    have hmap := infix_map Char.toUpper hdao
    have heq : "dao".toList.map Char.toUpper = "DAO".toList := by decide
    rw [heq] at hmap
    exact hmap
  rw [analyzeLine_eq]
  show a.dao_sent + (if daoSentPred line then 1 else 0) = a.dao_sent + 1
  unfold daoSentPred
  rw [hsend, hDAO]
  simp

/-- C1, witness for the amended claim at a concrete line. -/
theorem c1_lowercase_dao_increments_witness :
    (analyzeLine initState "my dao packet sent to 9".toList).dao_sent =
      initState.dao_sent + 1 :=
  c1_lowercase_dao_increments initState _ (by decide) (by decide)

/-- C2, counterexample: a log with exactly 10 receive-marker lines,
12 send-marker lines and no other marker, whose returned `pdr` is the exact
rational 250/3 and therefore differs from the claimed 83.33. -/
theorem c2_snapshot_counterexample :
    log12_10.countP recvPred = 10 ∧ log12_10.countP sendPred = 12 ∧
    log12_10.countP daoSentPred = 0 ∧ log12_10.countP daoBlockedPred = 0 ∧
    log12_10.countP blacklistedPred = 0 ∧ log12_10.countP attackCountPred = 0 ∧
    (analyze log12_10).pdr ≠ 8333 / 100 := by
  refine ⟨by decide, by decide, by decide, by decide, by decide, by decide, ?_⟩
  rw [analyze_pdr]
  have hs : log12_10.countP sendPred = 12 := by decide
  have hr : log12_10.countP recvPred = 10 := by decide
  rw [hs, hr]
  norm_num

/-- C2, amended: for every log with exactly 10 receive-marker lines,
12 send-marker lines and no line matching any other predicate, analyze
returns the snapshot with `pdr = 250/3` (83.33 when rounded to two
decimals) and `plr = 50/3` (16.67 rounded), all other counters zero. -/
theorem c2_snapshot (lines : List Line)
    (hr : lines.countP recvPred = 10) (hs : lines.countP sendPred = 12)
    (h3 : lines.countP daoSentPred = 0) (h4 : lines.countP daoBlockedPred = 0)
    (h5 : lines.countP blacklistedPred = 0) (h6 : lines.countP attackCountPred = 0) :
    analyze lines = ⟨12, 10, 250 / 3, 50 / 3, 0, 0, 0, 0⟩ := by
  rw [analyze_eq, hr, hs, h3, h4, h5, h6, get_metrics_def]
  norm_num [Metrics.mk.injEq]

/-- C2, witness for the amended claim at the concrete 22-line log. -/
theorem c2_snapshot_witness :
    analyze log12_10 = ⟨12, 10, 250 / 3, 50 / 3, 0, 0, 0, 0⟩ :=
  c2_snapshot log12_10 (by decide) (by decide) (by decide) (by decide)
    (by decide) (by decide)

/-- C3: the returned `pdr` is `100 * data_received / data_sent` whenever
`data_sent > 0`, and `0` when `data_sent = 0`, so the division never runs
with a zero denominator. -/
theorem c3_pdr_guarded_division (lines : List Line) :
    ((analyze lines).data_sent > 0 →
      (analyze lines).pdr =
        100 * ((analyze lines).data_received : ℚ) / ((analyze lines).data_sent : ℚ)) ∧
    ((analyze lines).data_sent = 0 → (analyze lines).pdr = 0) := by
  rw [analyze_data_sent, analyze_data_received, analyze_pdr]
  constructor
  · intro h
    rw [if_pos h]
    ring
  · intro h
    rw [if_neg (by omega)]

/-- C3, witness: both branches of the guard at concrete logs. -/
theorem c3_pdr_guarded_division_witness :
    (analyze demoLog).pdr =
      100 * ((analyze demoLog).data_received : ℚ) / ((analyze demoLog).data_sent : ℚ) ∧
    (analyze ([] : List Line)).pdr = 0 :=
  ⟨(c3_pdr_guarded_division demoLog).1 (by rw [analyze_data_sent]; decide),
   (c3_pdr_guarded_division []).2 (by rw [analyze_data_sent]; decide)⟩

/-- C4: for every log, the returned `pdr` and `plr` sum to exactly 100. -/
theorem c4_pdr_plr_sum (lines : List Line) :
    (analyze lines).pdr + (analyze lines).plr = 100 := by
  rw [analyze_plr]
  ring

/-- C5: each of the six integer counters returned by analyze equals the
number of lines satisfying that counter's predicate, so a line matching a
predicate contributes exactly one to its counter however many times the
substring occurs in it. -/
theorem c5_counters_count_lines (lines : List Line) :
    (analyze lines).data_sent = lines.countP sendPred ∧
    (analyze lines).data_received = lines.countP recvPred ∧
    (analyze lines).dao_sent = lines.countP daoSentPred ∧
    (analyze lines).dao_blocked = lines.countP daoBlockedPred ∧
    (analyze lines).nodes_blacklisted = lines.countP blacklistedPred ∧
    (analyze lines).attack_count = lines.countP attackCountPred := by
  rw [analyze_eq, get_metrics_def]
  exact ⟨rfl, rfl, rfl, rfl, rfl, rfl⟩

/-- C6: a line containing the word `blocked` in any letter casing (any `w`
with lowercase image `blocked` occurring in the line) increments
`dao_blocked` by one. -/
theorem c6_blocked_any_case (a : CoojaLogAnalyzer) (line w : Line)
    (hw : pyLower w = "blocked".toList) (hmem : pyIn w line = true) :
    (analyzeLine a line).dao_blocked = a.dao_blocked + 1 := by
  have hl : pyIn "blocked".toList (pyLower line) = true := by
    rw [pyIn_eq_true_iff] at hmem ⊢
    have hmap := infix_map Char.toLower hmem
    simp only [pyLower] at hw
    rw [hw] at hmap
    exact hmap
  rw [analyzeLine_eq]
  show a.dao_blocked + (if daoBlockedPred line then 1 else 0) = a.dao_blocked + 1
  unfold daoBlockedPred
  rw [hl]
  simp

/-- C6, witness at a mixed-case concrete line. -/
theorem c6_blocked_any_case_witness :
    (analyzeLine initState "node BlOcKeD now".toList).dao_blocked =
      initState.dao_blocked + 1 :=
  c6_blocked_any_case initState _ "BlOcKeD".toList (by decide) (by decide)

/-- C7: on every line all six predicates are evaluated independently; each
counter grows by one exactly when its own predicate holds, regardless of the
other five, so a line matching several predicates bumps all their counters
in the same pass. -/
theorem c7_independent_predicates (a : CoojaLogAnalyzer) (line : Line) :
    (analyzeLine a line).data_sent = a.data_sent + (if sendPred line then 1 else 0) ∧
    (analyzeLine a line).data_received = a.data_received + (if recvPred line then 1 else 0) ∧
    (analyzeLine a line).dao_sent = a.dao_sent + (if daoSentPred line then 1 else 0) ∧
    (analyzeLine a line).dao_blocked = a.dao_blocked + (if daoBlockedPred line then 1 else 0) ∧
    (analyzeLine a line).nodes_blacklisted = a.nodes_blacklisted + (if blacklistedPred line then 1 else 0) ∧
    (analyzeLine a line).attack_count = a.attack_count + (if attackCountPred line then 1 else 0) := by
  rw [analyzeLine_eq]
  exact ⟨rfl, rfl, rfl, rfl, rfl, rfl⟩

/-- C8: when no line matches the send-marker predicate the returned metrics
have `pdr = 0` and `plr = 100`; on the empty log additionally all six
counters are zero. -/
theorem c8_no_send_lines (lines : List Line)
    (h : lines.countP sendPred = 0) :
    (analyze lines).pdr = 0 ∧ (analyze lines).plr = 100 ∧
      (lines = [] →
        (analyze lines).data_sent = 0 ∧ (analyze lines).data_received = 0 ∧
        (analyze lines).dao_sent = 0 ∧ (analyze lines).dao_blocked = 0 ∧
        (analyze lines).nodes_blacklisted = 0 ∧ (analyze lines).attack_count = 0) := by
  have hp : (analyze lines).pdr = 0 := by
    rw [analyze_pdr, h]
    norm_num
  refine ⟨hp, by rw [analyze_plr, hp]; norm_num, ?_⟩
  rintro rfl
  rw [analyze_eq, get_metrics_def]
  exact ⟨rfl, rfl, rfl, rfl, rfl, rfl⟩

/-- C8, witness at the empty log. -/
theorem c8_no_send_lines_witness :
    (analyze ([] : List Line)).pdr = 0 ∧ (analyze ([] : List Line)).plr = 100 :=
  ⟨(c8_no_send_lines [] (by decide)).1, (c8_no_send_lines [] (by decide)).2.1⟩

/-- C9: whenever the receive-marker lines outnumber the send-marker lines
and at least one send-marker line exists, the returned `pdr` exceeds 100 and
the returned `plr` is negative: neither field is clamped to [0, 100]. -/
theorem c9_unclamped_percentages (lines : List Line)
    (hpos : 0 < lines.countP sendPred)
    (hgt : lines.countP sendPred < lines.countP recvPred) :
    100 < (analyze lines).pdr ∧ (analyze lines).plr < 0 := by
  have hs : (0 : ℚ) < (lines.countP sendPred : ℚ) := by exact_mod_cast hpos
  have hr : ((lines.countP sendPred : ℚ)) < (lines.countP recvPred : ℚ) := by
    exact_mod_cast hgt
  have hpdr : 100 < (analyze lines).pdr := by
    rw [analyze_pdr, if_pos hpos, div_mul_eq_mul_div, lt_div_iff₀ hs]
    nlinarith
  exact ⟨hpdr, by rw [analyze_plr]; linarith⟩

/-- C9, witness at a concrete receive-heavy log. -/
theorem c9_unclamped_percentages_witness :
    100 < (analyze logRecvHeavy).pdr ∧ (analyze logRecvHeavy).plr < 0 :=
  c9_unclamped_percentages logRecvHeavy (by decide) (by decide)

/-- Modelled from the spec: the single case-insensitive form of the blocked
check, testing only whether the lower-cased line contains `blocked`. -/
def daoBlockedPredSpec (line : Line) : Bool :=
  pyIn "blocked".toList (pyLower line)

/-- C10: the two-disjunct blocked predicate of the source agrees on every
line with the single case-insensitive check, because a line containing
`Blocked DAO` lower-cases to one containing `blocked`. -/
theorem c10_blocked_disjunct_redundant (line : Line) :
    daoBlockedPred line = daoBlockedPredSpec line := by
  unfold daoBlockedPred daoBlockedPredSpec
  cases h : pyIn "Blocked DAO".toList line
  · simp
  · have h2 : pyIn "blocked".toList (pyLower line) = true := by
      rw [pyIn_eq_true_iff] at h ⊢
      have hmap := infix_map Char.toLower h
      have heq : "Blocked DAO".toList.map Char.toLower = "blocked dao".toList := by decide
      rw [heq] at hmap
      exact List.IsInfix.trans (by decide) hmap
    rw [h2]
    simp

end LiMSD
